import Mathlib

/-!
Verification development for the M5Stack AtomS3 logic analyzer firmware
(`src/logic_analyzer.cpp`, `include/logic_analyzer.h`).  The C++ class
`LogicAnalyzer` is shallowly embedded: its mutable members become fields of
an explicit state record, each member function becomes a state-passing Lean
function translated statement by statement from the source, and the hardware
and filesystem collaborators (clock, pin reads, UART bytes, LittleFS) are
modelled as explicit inputs or as in-state data.  Machine integers are
modelled as `Nat`; 32-bit wraparound subtraction is made explicit where the
source relies on it.
-/

namespace AtomProbe

/-- `BUFFER_SIZE` from `logic_analyzer.h`: RAM ring buffer capacity. -/
def BUFFER_SIZE : Nat := 16384

/-- `MAX_BUFFER_SIZE` from `logic_analyzer.h`. -/
def MAX_BUFFER_SIZE : Nat := 262144

/-- `FLASH_BUFFER_SIZE` from `logic_analyzer.h`. -/
def FLASH_BUFFER_SIZE : Nat := 1000000

/-- `MAX_FLASH_BUFFER_SIZE` from `logic_analyzer.h`. -/
def MAX_FLASH_BUFFER_SIZE : Nat := 2000000

/-- `FLASH_CHUNK_SIZE` from `logic_analyzer.h`: staging buffer size in bytes. -/
def FLASH_CHUNK_SIZE : Nat := 4096

/-- `MIN_SAMPLE_RATE` from `logic_analyzer.h`. -/
def MIN_SAMPLE_RATE : Nat := 10

/-- `MAX_SAMPLE_RATE` from `logic_analyzer.h`. -/
def MAX_SAMPLE_RATE : Nat := 40000000

/-- `DEFAULT_SAMPLE_RATE` from `logic_analyzer.h`. -/
def DEFAULT_SAMPLE_RATE : Nat := 1000000

/-- `MAX_LOG_ENTRIES` from `logic_analyzer.h` (serial log cap). -/
def MAX_LOG_ENTRIES : Nat := 100

/-- `MAX_UART_ENTRIES` from `logic_analyzer.h` (default UART log cap). -/
def MAX_UART_ENTRIES : Nat := 1000000

/-- `UART_MSG_MAX_LENGTH` from `logic_analyzer.h`. -/
def UART_MSG_MAX_LENGTH : Nat := 1000

/-- `sizeof(Sample)` on the ESP32-S3 target: a 4-byte `uint32_t` plus a
`bool` padded to 4-byte alignment. -/
def SAMPLE_SIZE : Nat := 8

/-- 2^32, for explicit `uint32_t` wraparound arithmetic. -/
def U32 : Nat := 4294967296

/-- `uint32_t` subtraction `a - b` with wraparound, as the source uses for
`micros()`/`millis()` differences. -/
def u32sub (a b : Nat) : Nat :=
  ((a % U32) + U32 - (b % U32)) % U32

/-- `enum TriggerMode` from `logic_analyzer.h`. -/
inductive TriggerMode where
  | TRIGGER_NONE
  | TRIGGER_RISING_EDGE
  | TRIGGER_FALLING_EDGE
  | TRIGGER_BOTH_EDGES
  | TRIGGER_HIGH_LEVEL
  | TRIGGER_LOW_LEVEL
deriving DecidableEq

/-- `enum BufferMode` from `logic_analyzer.h`. -/
inductive BufferMode where
  | BUFFER_RAM
  | BUFFER_FLASH
  | BUFFER_STREAMING
  | BUFFER_COMPRESSED
deriving DecidableEq

/-- `enum CompressionType` from `logic_analyzer.h`. -/
inductive CompressionType where
  | COMPRESS_NONE
  | COMPRESS_RLE
  | COMPRESS_DELTA
  | COMPRESS_HYBRID
deriving DecidableEq

/-- `enum UartDuplexMode` from `logic_analyzer.h`. -/
inductive UartDuplexMode where
  | UART_FULL_DUPLEX
  | UART_HALF_DUPLEX
deriving DecidableEq

open TriggerMode BufferMode CompressionType UartDuplexMode

/-- Numeric value of a `TriggerMode`, as the C++ enum casts to `int`. -/
def TriggerMode.toNat : TriggerMode → Nat
  | TRIGGER_NONE => 0
  | TRIGGER_RISING_EDGE => 1
  | TRIGGER_FALLING_EDGE => 2
  | TRIGGER_BOTH_EDGES => 3
  | TRIGGER_HIGH_LEVEL => 4
  | TRIGGER_LOW_LEVEL => 5

/-- `struct Sample` from `logic_analyzer.h`. -/
structure Sample where
  timestamp : Nat
  data : Bool
deriving DecidableEq

/-- `struct CompressedSample` from `logic_analyzer.h`; the `type` tag holds
the `CompressionType` the source stores as a `uint8_t`. -/
structure CompressedSample where
  timestamp : Nat
  count : Nat
  data : Bool
  ctype : CompressionType
deriving DecidableEq

/-- `LogicAnalyzer::checkTrigger` (logic_analyzer.cpp lines 258-273): pure
in the trigger mode, the stored `lastState` and the current pin value. -/
def checkTrigger (triggerMode : TriggerMode) (lastState currentState : Bool) : Bool :=
  match triggerMode with
  | TRIGGER_RISING_EDGE => !lastState && currentState
  | TRIGGER_FALLING_EDGE => lastState && !currentState
  | TRIGGER_BOTH_EDGES => lastState != currentState
  | TRIGGER_HIGH_LEVEL => currentState
  | TRIGGER_LOW_LEVEL => !currentState
  | TRIGGER_NONE => true

/-- The trigger-wait loop of `LogicAnalyzer::process` (lines 229-237): while
not armed, each tick evaluates `checkTrigger` against the current pin value
and then stores the value into `lastState`.  `armIndex` returns the index of
the sample on which the trigger first fires. -/
def armIndex (mode : TriggerMode) : Bool → List Bool → Option Nat
  | _, [] => none
  | lastState, v :: rest =>
      if checkTrigger mode lastState v then some 0
      else (armIndex mode v rest).map (· + 1)

/-- Claim C1: `checkTrigger` is a pure function of the mode and the two pin
values, matching the specified table for all six modes; consequently the
trigger-wait loop fed `[false, false, true]` in RISING mode arms exactly on
the third sample (for either initial `lastState`), and fed
`[true, true, false, false, true]` in BOTH_EDGES mode (the line holding its
initial high level beforehand) arms at index 2, the first change. -/
theorem checkTrigger_table_and_sequences :
    (∀ l c : Bool, checkTrigger TRIGGER_RISING_EDGE l c = (!l && c)) ∧
    (∀ l c : Bool, checkTrigger TRIGGER_FALLING_EDGE l c = (l && !c)) ∧
    (∀ l c : Bool, checkTrigger TRIGGER_BOTH_EDGES l c = (l != c)) ∧
    (∀ l c : Bool, checkTrigger TRIGGER_HIGH_LEVEL l c = c) ∧
    (∀ l c : Bool, checkTrigger TRIGGER_LOW_LEVEL l c = !c) ∧
    (∀ l c : Bool, checkTrigger TRIGGER_NONE l c = true) ∧
    (∀ l0 : Bool, armIndex TRIGGER_RISING_EDGE l0 [false, false, true] = some 2) ∧
    armIndex TRIGGER_BOTH_EDGES true [true, true, false, false, true] = some 2 := by
  refine ⟨?_, ?_, ?_, ?_, ?_, ?_, ?_, ?_⟩ <;>
    first
      | (intro l c; cases l <;> cases c <;> rfl)
      | (intro l0; cases l0 <;> rfl)
      | rfl

/-- One entry of the serial log (`serialLogBuffer`): `addLogEntry` stores the
string `String(millis()) + ": " + message`; the entry is kept as the pair
that determines that string. -/
structure LogEntry where
  time : Nat
  msg : String
deriving DecidableEq

/-- One entry of the UART log (`uartLogBuffer`): `addUartEntry` stores the
string `String(millis()) + ": [UART " + direction + "] " + data`; the entry
is kept as the triple that determines that string. -/
structure UartEntry where
  time : Nat
  isRx : Bool
  data : String
deriving DecidableEq

/-- The mutable members of class `LogicAnalyzer` (header lines 87-183),
including the nested `LogicConfig` and `UartConfig` members the embedded
functions touch.  Hardware handles are reduced to the data the logic
observes: `uartSerialPresent` models `uartSerial != nullptr`, `hasPrefs`
models `preferences != nullptr`, `flashWriteBufAllocated` and
`compressedBufAllocated` model the two `malloc` results, `flashFileOpen` and
`flashFileData` model the LittleFS sample file (writes succeed), and
`uartFlashLog` models the LittleFS UART log file. -/
structure LAState where
  buffer : Nat → Sample
  writeIndex : Nat
  readIndex : Nat
  capturing : Bool
  sampleRate : Nat
  sampleInterval : Nat
  gpio1Pin : Nat
  triggerMode : TriggerMode
  lastState : Bool
  triggerArmed : Bool
  lastSampleTime : Nat
  serialLog : List LogEntry
  uartLog : List UartEntry
  maxUartEntries : Nat
  useFlashStorage : Bool
  uartFlashLog : List UartEntry
  logicSampleRate : Nat
  logicGpioPin : Nat
  logicTriggerMode : TriggerMode
  logicBufferSize : Nat
  preTriggerPercent : Nat
  bufferMode : BufferMode
  compression : CompressionType
  maxFlashSamples : Nat
  uartRxPin : Nat
  uartTxPin : Int
  duplexMode : UartDuplexMode
  uartSerialPresent : Bool
  uartMonitoringEnabled : Bool
  uartRxBuffer : String
  lastUartActivity : Nat
  uartBytesReceived : Nat
  uartBytesSent : Nat
  halfDuplexTxMode : Bool
  halfDuplexTxTimeout : Nat
  halfDuplexTxQueue : String
  halfDuplexBusy : Bool
  dualModeActive : Bool
  hasPrefs : Bool
  flashWriteBufAllocated : Bool
  compressedBufAllocated : Bool
  flashFileOpen : Bool
  flashFileData : List Sample
  stagedSamples : List Sample
  bufferPosition : Nat
  flashSamplesWritten : Nat
  flashWritePosition : Nat
  flashStorageActive : Bool
  compressedRecords : List CompressedSample
  lastTimestamp : Nat
  lastData : Bool
  runLength : Nat
  streamingActive : Bool
  streamingCount : Nat

/-- The `LogicAnalyzer()` constructor (lines 109-160) together with the
in-class initializers of `LogicConfig` and `UartConfig` (header lines
114-137). -/
def initState : LAState where
  buffer := fun _ => ⟨0, false⟩
  writeIndex := 0
  readIndex := 0
  capturing := false
  sampleRate := DEFAULT_SAMPLE_RATE
  sampleInterval := 1000000 / DEFAULT_SAMPLE_RATE
  gpio1Pin := 1
  triggerMode := TRIGGER_NONE
  lastState := false
  triggerArmed := false
  lastSampleTime := 0
  serialLog := []
  uartLog := []
  maxUartEntries := MAX_UART_ENTRIES
  useFlashStorage := true
  uartFlashLog := []
  logicSampleRate := DEFAULT_SAMPLE_RATE
  logicGpioPin := 1
  logicTriggerMode := TRIGGER_NONE
  logicBufferSize := FLASH_BUFFER_SIZE
  preTriggerPercent := 10
  bufferMode := BUFFER_FLASH
  compression := COMPRESS_NONE
  maxFlashSamples := FLASH_BUFFER_SIZE
  uartRxPin := 7
  uartTxPin := -1
  duplexMode := UART_FULL_DUPLEX
  uartSerialPresent := false
  uartMonitoringEnabled := false
  uartRxBuffer := ""
  lastUartActivity := 0
  uartBytesReceived := 0
  uartBytesSent := 0
  halfDuplexTxMode := false
  halfDuplexTxTimeout := 0
  halfDuplexTxQueue := ""
  halfDuplexBusy := false
  dualModeActive := false
  hasPrefs := false
  flashWriteBufAllocated := false
  compressedBufAllocated := false
  flashFileOpen := false
  flashFileData := []
  stagedSamples := []
  bufferPosition := 0
  flashSamplesWritten := 0
  flashWritePosition := 0
  flashStorageActive := false
  compressedRecords := []
  lastTimestamp := 0
  lastData := false
  runLength := 0
  streamingActive := false
  streamingCount := 0

/-- The serial-log update of `LogicAnalyzer::addLogEntry` (lines 767-777):
push the timestamped entry and drop the oldest entry once the buffer exceeds
`MAX_LOG_ENTRIES`. -/
def logAppend (log : List LogEntry) (e : LogEntry) : List LogEntry :=
  let log := log ++ [e]
  if log.length > MAX_LOG_ENTRIES then log.tail else log

/-- `LogicAnalyzer::addLogEntry` (lines 767-777). -/
def addLogEntry (now : Nat) (message : String) (s : LAState) : LAState :=
  { s with serialLog := logAppend s.serialLog ⟨now, message⟩ }

/-- `LogicAnalyzer::getBufferUsage` (lines 411-421). -/
def getBufferUsage (s : LAState) : Nat :=
  if s.bufferMode = BUFFER_FLASH ∨ s.bufferMode = BUFFER_STREAMING then
    s.flashSamplesWritten
  else if s.writeIndex ≥ s.readIndex then
    s.writeIndex - s.readIndex
  else
    (BUFFER_SIZE - s.readIndex) + s.writeIndex

/-- `LogicAnalyzer::isBufferFull` (lines 430-436). -/
def isBufferFull (s : LAState) : Bool :=
  if s.bufferMode = BUFFER_FLASH ∨ s.bufferMode = BUFFER_STREAMING then
    s.flashSamplesWritten ≥ s.maxFlashSamples
  else
    getBufferUsage s ≥ BUFFER_SIZE - 1

/-- `LogicAnalyzer::flushFlashBuffer` (lines 1571-1583): nothing to do
without a staging buffer or with an empty one; otherwise open the backing
file if needed (the modelled filesystem accepts the open and the write) and
move the staged bytes out. -/
def flushFlashBuffer (s : LAState) : LAState :=
  if !s.flashWriteBufAllocated || s.bufferPosition == 0 then s
  else
    { s with flashFileOpen := true
             flashFileData := s.flashFileData ++ s.stagedSamples
             flashWritePosition := s.flashWritePosition + s.bufferPosition
             bufferPosition := 0
             stagedSamples := [] }

/-- `LogicAnalyzer::writeToFlash` (lines 1557-1569): copy the sample into
the 4 KiB staging buffer, count it, and flush when the staging buffer is
about to overflow. -/
def writeToFlash (sample : Sample) (s : LAState) : LAState :=
  if !s.flashWriteBufAllocated then s
  else
    let s := { s with stagedSamples := s.stagedSamples ++ [sample]
                      bufferPosition := s.bufferPosition + SAMPLE_SIZE
                      flashSamplesWritten := s.flashSamplesWritten + 1 }
    if s.bufferPosition ≥ FLASH_CHUNK_SIZE - SAMPLE_SIZE then flushFlashBuffer s else s

/-- `LogicAnalyzer::compressRunLength` (lines 1629-1638): append one RLE
record while fewer than 1000 records are stored. -/
def compressRunLength (data : Bool) (timestamp : Nat) (count : Nat) (s : LAState) : LAState :=
  if s.compressedRecords.length < 1000 then
    { s with compressedRecords :=
        s.compressedRecords ++ [⟨timestamp, count, data, COMPRESS_RLE⟩] }
  else s

/-- `LogicAnalyzer::compressDelta` (lines 1640-1649): append one delta
record (32-bit timestamp difference) while fewer than 1000 are stored. -/
def compressDelta (timestamp : Nat) (data : Bool) (s : LAState) : LAState :=
  if s.compressedRecords.length < 1000 then
    { s with compressedRecords :=
        s.compressedRecords ++ [⟨u32sub timestamp s.lastTimestamp, 1, data, COMPRESS_DELTA⟩] }
  else s

/-- `LogicAnalyzer::compressSample` (lines 1599-1627). -/
def compressSample (sample : Sample) (s : LAState) : LAState :=
  if !s.compressedBufAllocated then s
  else
    let s :=
      match s.compression with
      | COMPRESS_RLE => compressRunLength sample.data sample.timestamp 1 s
      | COMPRESS_DELTA => compressDelta sample.timestamp sample.data s
      | COMPRESS_HYBRID =>
          if sample.data == s.lastData && s.runLength < 65535 then
            { s with runLength := s.runLength + 1 }
          else
            let s := if s.runLength > 0 then
                       compressRunLength s.lastData s.lastTimestamp s.runLength s
                     else s
            let s := compressDelta sample.timestamp sample.data s
            { s with runLength := 1 }
      | COMPRESS_NONE => s
    { s with lastTimestamp := sample.timestamp, lastData := sample.data }

/-- `LogicAnalyzer::processStreamingSample` (lines 1669-1693).  The source
reinterprets each `CompressedSample` as a `Sample` when draining the
compression buffer to flash; the model forwards its timestamp and data. -/
def processStreamingSample (sample : Sample) (s : LAState) : LAState :=
  if !s.streamingActive then s
  else
    let s := { s with streamingCount := s.streamingCount + 1 }
    let s :=
      if s.compression ≠ COMPRESS_NONE then
        let s := compressSample sample s
        if s.compressedRecords.length ≥ 500 then
          let s := s.compressedRecords.foldl
            (fun t r => writeToFlash ⟨r.timestamp, r.data⟩ t) s
          { s with compressedRecords := [] }
        else s
      else writeToFlash sample s
    if s.streamingCount % 1000 == 0 then flushFlashBuffer s else s

/-- `LogicAnalyzer::addSample` (lines 275-303); the sample timestamp is the
`micros()` reading passed in as `mic`. -/
def addSample (mic : Nat) (data : Bool) (s : LAState) : LAState :=
  let sample : Sample := ⟨mic % U32, data⟩
  match s.bufferMode with
  | BUFFER_RAM =>
      { s with buffer := Function.update s.buffer s.writeIndex sample
               writeIndex := (s.writeIndex + 1) % BUFFER_SIZE }
  | BUFFER_FLASH => writeToFlash sample s
  | BUFFER_STREAMING => processStreamingSample sample s
  | BUFFER_COMPRESSED => compressSample sample s

/-- `LogicAnalyzer::clearBuffer` (lines 390-409): reset the ring indices
and, in the flash-backed modes, reset the flash counters, close the file and
remove it. -/
def clearBuffer (s : LAState) : LAState :=
  let s := { s with writeIndex := 0, readIndex := 0 }
  if s.bufferMode = BUFFER_FLASH ∨ s.bufferMode = BUFFER_STREAMING then
    { s with flashSamplesWritten := 0
             flashWritePosition := 0
             bufferPosition := 0
             stagedSamples := []
             flashFileOpen := false
             flashFileData := [] }
  else s

/-- `LogicAnalyzer::startCapture` (lines 305-312); `mic` is the `micros()`
reading and `now` the `millis()` reading at the call. -/
def startCapture (mic now : Nat) (s : LAState) : LAState :=
  let s := clearBuffer s
  let s := { s with triggerArmed := s.triggerMode == TRIGGER_NONE
                    lastSampleTime := mic
                    capturing := true }
  addLogEntry now "Capture started on GPIO1" s

/-- The log message built inside `LogicAnalyzer::stopCapture`. -/
def stopCaptureMsg (s : LAState) : String :=
  let maxSize := if s.bufferMode = BUFFER_FLASH ∨ s.bufferMode = BUFFER_STREAMING then
                   s.maxFlashSamples else BUFFER_SIZE
  "Capture stopped. Buffer: " ++ toString (getBufferUsage s) ++ "/" ++ toString maxSize
    ++ " (" ++ (if s.bufferMode = BUFFER_FLASH then "Flash" else "RAM") ++ ")"

/-- `LogicAnalyzer::stopCapture` (lines 314-328): clear `capturing`, log the
final usage, and flush the flash staging buffer only in `BUFFER_FLASH`
mode. -/
def stopCapture (now : Nat) (s : LAState) : LAState :=
  let s := { s with capturing := false }
  let s := addLogEntry now (stopCaptureMsg s) s
  if s.bufferMode = BUFFER_FLASH then flushFlashBuffer s else s

/-- `LogicAnalyzer::setSampleRate` (lines 334-341): clamp to
`[MIN_SAMPLE_RATE, MAX_SAMPLE_RATE]`, store rate and derived interval; no
log entry is added (the source only prints to the serial console). -/
def setSampleRate (rate : Nat) (s : LAState) : LAState :=
  let rate := if rate < MIN_SAMPLE_RATE then MIN_SAMPLE_RATE else rate
  let rate := if rate > MAX_SAMPLE_RATE then MAX_SAMPLE_RATE else rate
  { s with sampleRate := rate, sampleInterval := 1000000 / rate }

/-- `LogicAnalyzer::setTrigger` (lines 347-351). -/
def setTrigger (mode : TriggerMode) (s : LAState) : LAState :=
  { s with triggerMode := mode, triggerArmed := false }

/-- `LogicAnalyzer::saveLogicConfig` (lines 903-920), reduced to its log
effect; the key-value writes go to the external `Preferences` store. -/
def saveLogicConfig (now : Nat) (s : LAState) : LAState :=
  if s.hasPrefs then
    addLogEntry now ("Logic config saved: " ++ toString s.logicSampleRate ++ "Hz, GPIO"
      ++ toString s.logicGpioPin ++ ", Trigger:" ++ toString s.logicTriggerMode.toNat) s
  else
    addLogEntry now "Logic config save failed - no preferences available" s

/-- The configuration message built at the end of
`LogicAnalyzer::configureLogic`. -/
def configMsgStr (rate pin : Nat) (tmode : TriggerMode) (bsize ptrig : Nat) : String :=
  "Logic Analyzer configured: " ++ toString rate ++ "Hz, GPIO" ++ toString pin
    ++ ", Trigger:" ++ toString tmode.toNat ++ ", Buffer:" ++ toString bsize
    ++ ", PreTrig:" ++ toString ptrig ++ "%"

/-- `LogicAnalyzer::configureLogic` (lines 850-878): clamp each argument,
store the configuration, apply it, persist it, and log it.  The enum-range
check on `triggerMode` is vacuous here because the embedded enum has no
out-of-range values; `CHANNEL_0_PIN` is 1 (AtomS3 build). -/
def configureLogic (now : Nat) (sampleRate : Nat) (gpioPin : Nat) (triggerMode : TriggerMode)
    (bufferSize : Nat) (preTriggerPercent : Nat) (s : LAState) : LAState :=
  let sampleRate := if sampleRate < MIN_SAMPLE_RATE then MIN_SAMPLE_RATE else sampleRate
  let sampleRate := if sampleRate > MAX_SAMPLE_RATE then MAX_SAMPLE_RATE else sampleRate
  let gpioPin := if gpioPin > 48 then 1 else gpioPin
  let bufferSize := if bufferSize > MAX_BUFFER_SIZE then MAX_BUFFER_SIZE else bufferSize
  let bufferSize := if bufferSize < 1024 then 1024 else bufferSize
  let preTriggerPercent := if preTriggerPercent > 90 then 90 else preTriggerPercent
  let s := { s with logicSampleRate := sampleRate
                    logicGpioPin := gpioPin
                    logicTriggerMode := triggerMode
                    logicBufferSize := bufferSize
                    preTriggerPercent := preTriggerPercent }
  let s := setSampleRate sampleRate s
  let s := setTrigger triggerMode s
  let s := { s with gpio1Pin := gpioPin }
  let s := saveLogicConfig now s
  addLogEntry now (configMsgStr sampleRate gpioPin triggerMode bufferSize preTriggerPercent) s

/-- `LogicAnalyzer::compactUartLogs` (lines 1346-1356): when the RAM UART
log has reached 90% of its capacity, erase the oldest 20% of capacity in one
batch and log the compaction.  The source computes both thresholds in
`double`; at the capacities the claims exercise (1000 entries) those
products are exact, so they are modelled as `9 * cap / 10` and `cap / 5`. -/
def compactUartLogs (now : Nat) (s : LAState) : LAState :=
  if 10 * s.uartLog.length ≥ 9 * s.maxUartEntries then
    let removeCount := s.maxUartEntries / 5
    let s := { s with uartLog := s.uartLog.drop removeCount }
    addLogEntry now ("UART buffer compacted: removed " ++ toString removeCount
      ++ " oldest entries (" ++ toString s.uartLog.length ++ "/"
      ++ toString s.maxUartEntries ++ " remaining)") s
  else s

/-- `LogicAnalyzer::addUartEntry` (lines 1104-1132).  With flash storage the
entry is appended to the log file (the modelled filesystem accepts the
write, so the RAM fallback path is not taken); with RAM storage it is pushed
and the store compacted once it exceeds `maxUartEntries`.  Either way the
entry is echoed into the serial log. -/
def addUartEntry (now : Nat) (data : String) (isRx : Bool) (s : LAState) : LAState :=
  let dir := if isRx then "RX" else "TX"
  let s :=
    if s.useFlashStorage then
      { s with uartFlashLog := s.uartFlashLog ++ [⟨now, isRx, data⟩] }
    else
      let s := { s with uartLog := s.uartLog ++ [⟨now, isRx, data⟩] }
      if s.uartLog.length > s.maxUartEntries then compactUartLogs now s else s
  addLogEntry now ("UART " ++ dir ++ ": " ++ data) s

/-- Hex rendering used for non-printable UART bytes,
`"[0x" + String(c, HEX) + "]"`; the model renders the byte value. -/
def hexByte (c : Nat) : String :=
  "[0x" ++ String.mk (Nat.toDigits 16 c) ++ "]"

/-- One iteration of the RX byte loop in `LogicAnalyzer::processUartData`
(lines 1072-1094): count the byte, refresh the activity time, and either
flush the line on CR/LF, append a printable character (force-flushing with
a marker on overflow), or append a hex escape. -/
def uartRxByte (now : Nat) (s : LAState) (c : Nat) : LAState :=
  let s := { s with uartBytesReceived := s.uartBytesReceived + 1, lastUartActivity := now }
  if c == 10 || c == 13 then
    if s.uartRxBuffer.length > 0 then
      let s := addUartEntry now s.uartRxBuffer true s
      { s with uartRxBuffer := "" }
    else s
  else if 32 ≤ c && c ≤ 126 then
    let s := { s with uartRxBuffer := s.uartRxBuffer.push (Char.ofNat c) }
    if s.uartRxBuffer.length > UART_MSG_MAX_LENGTH then
      let s := addUartEntry now (s.uartRxBuffer ++ " [TRUNCATED]") true s
      { s with uartRxBuffer := "" }
    else s
  else
    { s with uartRxBuffer := s.uartRxBuffer ++ hexByte c }

/-- `LogicAnalyzer::switchToTxMode` (lines 1911-1947), reduced to its state
effect; the serial peripheral reconfiguration is hardware I/O. -/
def switchToTxMode (now : Nat) (s : LAState) : LAState :=
  if !s.halfDuplexTxMode then
    addLogEntry now "Half-duplex: Switched to TX mode" { s with halfDuplexTxMode := true }
  else s

/-- `LogicAnalyzer::switchToRxMode` (lines 1872-1909), reduced to its state
effect. -/
def switchToRxMode (now : Nat) (s : LAState) : LAState :=
  if s.halfDuplexTxMode then
    addLogEntry now "Half-duplex: Switched to RX mode"
      { s with halfDuplexTxMode := false, halfDuplexBusy := false }
  else s

/-- `LogicAnalyzer::processHalfDuplexQueue` (lines 1850-1870): when a
command is pending and the engine is idle, switch to TX, transmit and log
the command, clear the slot and mark the engine busy. -/
def processHalfDuplexQueue (now : Nat) (s : LAState) : LAState :=
  if !s.halfDuplexTxQueue.isEmpty && !s.halfDuplexBusy then
    let s := switchToTxMode now s
    let s := addUartEntry now s.halfDuplexTxQueue false s
    let s := { s with uartBytesSent := s.uartBytesSent + s.halfDuplexTxQueue.length
                      halfDuplexTxQueue := ""
                      halfDuplexTxTimeout := now
                      halfDuplexBusy := true }
    addLogEntry now "Half-duplex: Command sent, waiting for response" s
  else s

/-- The half-duplex section of `LogicAnalyzer::processUartData` (lines
1061-1068): service the pending-command slot and fall back to RX mode after
the 100 ms TX timeout. -/
def uartHalfDuplexPhase (now : Nat) (s : LAState) : LAState :=
  let s := processHalfDuplexQueue now s
  if s.halfDuplexTxMode && u32sub now s.halfDuplexTxTimeout > 100 then
    switchToRxMode now s
  else s

/-- The RX section of `LogicAnalyzer::processUartData` (lines 1071-1101):
drain the FIFO through the framing loop and force-flush a stale partial
line after the 1000 ms receive gap. -/
def uartRxPhase (now : Nat) (bytes : List Nat) (s : LAState) : LAState :=
  let s := bytes.foldl (uartRxByte now) s
  if s.uartRxBuffer.length > 0 && u32sub now s.lastUartActivity > 1000 then
    let s := addUartEntry now (s.uartRxBuffer ++ " [TIMEOUT]") true s
    { s with uartRxBuffer := "" }
  else s

/-- `LogicAnalyzer::processUartData` (lines 1057-1102); `bytes` is the
content of the UART receive FIFO this tick and `now` the `millis()`
reading. -/
def processUartData (now : Nat) (bytes : List Nat) (s : LAState) : LAState :=
  if !s.uartSerialPresent || !s.uartMonitoringEnabled then s
  else
    let s := if s.duplexMode == UART_HALF_DUPLEX then uartHalfDuplexPhase now s else s
    if s.duplexMode == UART_FULL_DUPLEX || !s.halfDuplexTxMode then
      uartRxPhase now bytes s
    else s

/-- One iteration of the RX byte loop in
`LogicAnalyzer::processDualModeData` (lines 53-72); identical framing to
`uartRxByte` but tagging entries with the dual-mode markers. -/
def dualUartRxByte (now : Nat) (s : LAState) (c : Nat) : LAState :=
  let s := { s with uartBytesReceived := s.uartBytesReceived + 1, lastUartActivity := now }
  if c == 10 || c == 13 then
    if s.uartRxBuffer.length > 0 then
      let s := addUartEntry now (s.uartRxBuffer ++ " [DUAL]") true s
      { s with uartRxBuffer := "" }
    else s
  else if 32 ≤ c && c ≤ 126 then
    let s := { s with uartRxBuffer := s.uartRxBuffer.push (Char.ofNat c) }
    if s.uartRxBuffer.length > UART_MSG_MAX_LENGTH then
      let s := addUartEntry now (s.uartRxBuffer ++ " [DUAL-TRUNC]") true s
      { s with uartRxBuffer := "" }
    else s
  else
    { s with uartRxBuffer := s.uartRxBuffer ++ hexByte c }

/-- The body of `LogicAnalyzer::processDualModeData` before its final
buffer-full check (lines 34-81): run the trigger logic, record the sample
once armed, drain the UART bytes through the dual-mode framing, and refresh
`lastState`. -/
def dualCore (now mic : Nat) (currentState : Bool) (bytes : List Nat)
    (s : LAState) : LAState :=
  let s :=
    if s.triggerMode ≠ TRIGGER_NONE ∧ ¬s.triggerArmed then
      let s :=
        if checkTrigger s.triggerMode s.lastState currentState then
          addLogEntry now ("Dual-mode trigger activated on GPIO" ++ toString s.logicGpioPin)
            { s with triggerArmed := true }
        else s
      { s with lastState := currentState }
    else s
  let s := if s.triggerArmed then addSample mic currentState s else s
  let s := if s.uartSerialPresent && !bytes.isEmpty then bytes.foldl (dualUartRxByte now) s else s
  let s :=
    if s.uartRxBuffer.length > 0 && u32sub now s.lastUartActivity > 1000 then
      let s := addUartEntry now (s.uartRxBuffer ++ " [DUAL-TIMEOUT]") true s
      { s with uartRxBuffer := "" }
    else s
  { s with lastState := currentState }

/-- `LogicAnalyzer::processDualModeData` (lines 34-89): the dual-mode body
followed by the buffer-full stop check (lines 83-88). -/
def processDualModeData (now mic : Nat) (currentState : Bool) (bytes : List Nat)
    (s : LAState) : LAState :=
  let t := dualCore now mic currentState bytes s
  if isBufferFull t then
    { addLogEntry now "Dual-mode Logic buffer full - stopping capture" t with capturing := false }
  else t

/-- The external inputs one call of `LogicAnalyzer::process` observes:
`millis()`, `micros()`, the GPIO1 pin level, and the UART receive FIFO. -/
structure TickInput where
  now : Nat
  mic : Nat
  pin : Bool
  uartBytes : List Nat

/-- The trigger-wait branch of `LogicAnalyzer::process` (lines 229-237):
check the trigger, log and arm on success, refresh `lastState`, and return
without recording a sample. -/
def triggerWaitStep (inp : TickInput) (s : LAState) : LAState :=
  let s :=
    if checkTrigger s.triggerMode s.lastState inp.pin then
      addLogEntry inp.now "Trigger activated on GPIO1" { s with triggerArmed := true }
    else s
  { s with lastState := inp.pin }

/-- The sampling branch of `LogicAnalyzer::process` (lines 239-249): record
the sample, refresh the timing state, and auto-stop with a log entry once
the buffer is full. -/
def captureSampleStep (inp : TickInput) (s : LAState) : LAState :=
  let s := addSample inp.mic inp.pin s
  let s := { s with lastSampleTime := inp.mic, lastState := inp.pin }
  if isBufferFull s then
    stopCapture inp.now (addLogEntry inp.now "Buffer full - auto-stopping capture" s)
  else s

/-- `LogicAnalyzer::process` (lines 203-250): the per-tick acquisition
driver — dual-mode branch, UART servicing, sampling interval check, trigger
wait, sample recording, and the buffer-full auto-stop. -/
def processTick (inp : TickInput) (s : LAState) : LAState :=
  if s.dualModeActive && s.uartMonitoringEnabled && s.capturing then
    if u32sub inp.mic s.lastSampleTime ≥ s.sampleInterval then
      let s := processDualModeData inp.now inp.mic inp.pin inp.uartBytes s
      { s with lastSampleTime := inp.mic }
    else s
  else
    let s := if s.uartMonitoringEnabled then processUartData inp.now inp.uartBytes s else s
    if !s.capturing then s
    else if u32sub inp.mic s.lastSampleTime ≥ s.sampleInterval then
      if s.triggerMode ≠ TRIGGER_NONE ∧ ¬s.triggerArmed then
        triggerWaitStep inp s
      else
        captureSampleStep inp s
    else s

/-- `LogicAnalyzer::isDualModeCompatible` (lines 29-32). -/
def isDualModeCompatible (s : LAState) : Bool :=
  s.uartRxPin == s.logicGpioPin

/-- `LogicAnalyzer::enableDualMode` (lines 9-23). -/
def enableDualMode (enable : Bool) (now : Nat) (s : LAState) : LAState :=
  if enable && isDualModeCompatible s then
    addLogEntry now ("Dual-mode activated: UART + Logic on GPIO" ++ toString s.logicGpioPin)
      { s with dualModeActive := true }
  else if enable && !isDualModeCompatible s then
    addLogEntry now ("Dual-mode failed: Pin conflict - UART on GPIO" ++ toString s.uartRxPin
      ++ ", Logic on GPIO" ++ toString s.logicGpioPin)
      { s with dualModeActive := false }
  else
    addLogEntry now "Dual-mode deactivated" { s with dualModeActive := false }

/-- The `dual_mode_active` field of `LogicAnalyzer::getDualModeStatus`
(lines 91-105). -/
def dualModeStatusActive (s : LAState) : Bool :=
  s.dualModeActive

/-- `LogicAnalyzer::sendHalfDuplexCommand` (lines 1949-1964): reject with
`false` outside half-duplex mode; when busy, log, overwrite the single
pending-command slot and return `false`; otherwise fill the slot and return
`true`. -/
def sendHalfDuplexCommand (now : Nat) (command : String) (s : LAState) : Bool × LAState :=
  if s.duplexMode ≠ UART_HALF_DUPLEX then
    (false, addLogEntry now "Error: Half-duplex command sent but not in half-duplex mode" s)
  else if s.halfDuplexBusy then
    let s := addLogEntry now ("Error: Half-duplex busy, command queued: " ++ command) s
    (false, { s with halfDuplexTxQueue := command ++ "\r\n" })
  else
    let s := { s with halfDuplexTxQueue := command ++ "\r\n" }
    (true, addLogEntry now ("Half-duplex: Command queued - " ++ command) s)

/-- The sample-collection loop shared by `LogicAnalyzer::getDataAsJSON`
(lines 363-388) and `LogicAnalyzer::getDataAsCSV` (lines 815-847): read
`count` samples starting at a local copy of `readIndex`, wrapping modulo
`BUFFER_SIZE`. -/
def collectSamples : Nat → Nat → (Nat → Sample) → List Sample
  | 0, _, _ => []
  | n + 1, idx, buf => buf idx :: collectSamples n ((idx + 1) % BUFFER_SIZE) buf

/-- The data of the JSON document `LogicAnalyzer::getDataAsJSON` builds
(field for field); serialization to the final string is presentation. -/
structure JsonExport where
  samples : List Sample
  sample_count : Nat
  sample_rate : Nat
  gpio_pin : Nat
  buffer_size : Nat
  trigger_mode : Nat
deriving DecidableEq

/-- `LogicAnalyzer::getDataAsJSON` as a state transformer: it reads the
buffer through local variables only, so the returned state is the input
state. -/
def getDataAsJSON (s : LAState) : JsonExport × LAState :=
  (⟨collectSamples (getBufferUsage s) s.readIndex s.buffer,
    getBufferUsage s, s.sampleRate, s.gpio1Pin, BUFFER_SIZE, s.triggerMode.toNat⟩, s)

/-- One data row of the CSV export: 1-based sample index, timestamp,
0/1 digital value, and "HIGH"/"LOW" state string. -/
structure CsvRow where
  sampleNo : Nat
  timestamp : Nat
  digital : Nat
  state : String
deriving DecidableEq

/-- The data rows `LogicAnalyzer::getDataAsCSV` emits, as a state
transformer; the `#`-prefixed header comments are presentation. -/
def getDataAsCSV (s : LAState) : List CsvRow × LAState :=
  ((collectSamples (getBufferUsage s) s.readIndex s.buffer).enum.map
      (fun p => ⟨p.1 + 1, p.2.timestamp, if p.2.data then 1 else 0,
                 if p.2.data then "HIGH" else "LOW"⟩), s)

/-! ## Claim C2: RAM ring buffer usage invariant -/

/-- One client operation on the RAM buffer: record a sample
(`LogicAnalyzer::addSample`) or clear (`LogicAnalyzer::clearBuffer`). -/
inductive RamOp where
  | record (mic : Nat) (data : Bool)
  | clear

/-- Run a sequence of record/clear operations. -/
def runRamOps (s : LAState) (ops : List RamOp) : LAState :=
  ops.foldl (fun t op =>
    match op with
    | RamOp.record mic data => addSample mic data t
    | RamOp.clear => clearBuffer t) s

/-- Record a list of samples, one `addSample` per element. -/
def applyRecords (recs : List (Nat × Bool)) (s : LAState) : LAState :=
  recs.foldl (fun t r => addSample r.1 r.2 t) s

/-- The analyzer state in RAM buffer mode. -/
def ramInit : LAState := { initState with bufferMode := BUFFER_RAM }

theorem addSample_ram (mic : Nat) (data : Bool) (s : LAState)
    (h : s.bufferMode = BUFFER_RAM) :
    (addSample mic data s).bufferMode = BUFFER_RAM ∧
    (addSample mic data s).writeIndex = (s.writeIndex + 1) % BUFFER_SIZE ∧
    (addSample mic data s).readIndex = s.readIndex := by
  unfold addSample
  rw [h]
  exact ⟨rfl, rfl, rfl⟩

theorem clearBuffer_fields (s : LAState) :
    (clearBuffer s).bufferMode = s.bufferMode ∧
    (clearBuffer s).writeIndex = 0 ∧
    (clearBuffer s).readIndex = 0 := by
  refine ⟨?_, ?_, ?_⟩ <;> (simp only [clearBuffer]; split <;> rfl)

/-- The ring-buffer invariant in RAM mode: the mode is stable, `readIndex`
stays zero (nothing but `clearBuffer` ever writes it) and `writeIndex` stays
below the capacity. -/
def RamInv (s : LAState) : Prop :=
  s.bufferMode = BUFFER_RAM ∧ s.readIndex = 0 ∧ s.writeIndex < BUFFER_SIZE

theorem runRamOps_inv : ∀ (ops : List RamOp) (s : LAState),
    RamInv s → RamInv (runRamOps s ops) := by
  intro ops
  induction ops with
  | nil => intro s h; exact h
  | cons op rest ih =>
      intro s h
      cases op with
      | record m d =>
          have hstep : RamInv (addSample m d s) := by
            obtain ⟨h1, h2, h3⟩ := addSample_ram m d s h.1
            refine ⟨h1, h3 ▸ h.2.1, ?_⟩
            rw [h2]
            exact Nat.mod_lt _ (by decide)
          exact ih _ hstep
      | clear =>
          have hstep : RamInv (clearBuffer s) := by
            obtain ⟨h1, h2, h3⟩ := clearBuffer_fields s
            exact ⟨h1 ▸ h.1, h3, h2 ▸ (by decide : (0 : Nat) < BUFFER_SIZE)⟩
          exact ih _ hstep

theorem usage_of_inv (s : LAState) (h : RamInv s) :
    getBufferUsage s = s.writeIndex := by
  unfold getBufferUsage
  rw [h.1, h.2.1]
  simp

theorem applyRecords_writeIndex : ∀ (recs : List (Nat × Bool)) (s : LAState),
    s.bufferMode = BUFFER_RAM → s.readIndex = 0 →
    s.writeIndex + recs.length < BUFFER_SIZE →
    (applyRecords recs s).bufferMode = BUFFER_RAM ∧
    (applyRecords recs s).readIndex = 0 ∧
    (applyRecords recs s).writeIndex = s.writeIndex + recs.length := by
  intro recs
  induction recs with
  | nil => intro s h1 h2 _; exact ⟨h1, h2, rfl⟩
  | cons r rest ih =>
      intro s h1 h2 h3
      obtain ⟨a1, a2, a3⟩ := addSample_ram r.1 r.2 s h1
      have h3' : s.writeIndex + (rest.length + 1) < BUFFER_SIZE := by simpa using h3
      have hw : (addSample r.1 r.2 s).writeIndex = s.writeIndex + 1 := by
        rw [a2]
        exact Nat.mod_eq_of_lt (by omega)
      have hrec := ih (addSample r.1 r.2 s) a1 (a3 ▸ h2) (by rw [hw]; omega)
      refine ⟨hrec.1, hrec.2.1, ?_⟩
      show (applyRecords rest (addSample r.1 r.2 s)).writeIndex = s.writeIndex + (r :: rest).length
      rw [hrec.2.2, hw]
      simp
      omega

/-- Claim C2: in RAM buffer mode, for every sequence of record/clear
operations the reported buffer usage stays at most `BUFFER_SIZE - 1`, and
after exactly `n` records following a clear with `n < BUFFER_SIZE` the usage
equals `n`. -/
theorem ram_ring_usage_bound :
    (∀ ops : List RamOp, getBufferUsage (runRamOps ramInit ops) ≤ BUFFER_SIZE - 1) ∧
    (∀ (s : LAState) (recs : List (Nat × Bool)), s.bufferMode = BUFFER_RAM →
      recs.length < BUFFER_SIZE →
      getBufferUsage (applyRecords recs (clearBuffer s)) = recs.length) := by
  constructor
  · intro ops
    have h := runRamOps_inv ops ramInit ⟨rfl, rfl, by decide⟩
    rw [usage_of_inv _ h]
    have := h.2.2
    unfold BUFFER_SIZE at *
    omega
  · intro s recs hmode hlen
    obtain ⟨c1, c2, c3⟩ := clearBuffer_fields s
    have h := applyRecords_writeIndex recs (clearBuffer s) (c1 ▸ hmode) c3
      (by rw [c2]; omega)
    have hinv : RamInv (applyRecords recs (clearBuffer s)) := by
      refine ⟨h.1, h.2.1, ?_⟩
      rw [h.2.2, c2]
      omega
    rw [usage_of_inv _ hinv, h.2.2, c2]
    omega

def c2Ops : List RamOp :=
  [RamOp.record 0 true, RamOp.clear, RamOp.record 1 false, RamOp.record 2 true]

def c2Recs : List (Nat × Bool) := [(0, true), (1, false), (2, true)]

/-- Witness for C2 at concrete inputs: a four-operation run stays within the
bound, and three records after a clear report usage 3. -/
theorem ram_ring_usage_bound_witness :
    getBufferUsage (runRamOps ramInit c2Ops) ≤ BUFFER_SIZE - 1 ∧
    getBufferUsage (applyRecords c2Recs (clearBuffer ramInit)) = 3 :=
  ⟨ram_ring_usage_bound.1 c2Ops,
   ram_ring_usage_bound.2 ramInit c2Recs rfl (by decide)⟩

/-! ## Claim C3: pure RLE compression of [false]*5 ++ [true]*3 -/

/-- The analyzer state with pure RLE compression active and the compression
buffer allocated (`enableFlashBuffering(BUFFER_COMPRESSED)` followed by
`enableCompression(COMPRESS_RLE)`). -/
def c3State : LAState :=
  { initState with bufferMode := BUFFER_COMPRESSED
                   compression := COMPRESS_RLE
                   compressedBufAllocated := true }

/-- The eight-sample input `[false]*5 ++ [true]*3` with consecutive
timestamps. -/
def c3Samples : List Sample :=
  [⟨0, false⟩, ⟨1, false⟩, ⟨2, false⟩, ⟨3, false⟩, ⟨4, false⟩,
   ⟨5, true⟩, ⟨6, true⟩, ⟨7, true⟩]

/-- The eight samples fed one at a time through
`LogicAnalyzer::compressSample`. -/
def c3Run : LAState :=
  c3Samples.foldl (fun t smp => compressSample smp t) c3State

/-- Counterexample to C3 as stated: under `COMPRESS_RLE`,
`compressSample` calls `compressRunLength(data, timestamp, 1)` for every
sample, so the eight-sample input yields eight records, not two. -/
theorem rle_pure_not_two_records_counterexample :
    c3Run.compressedRecords.length = 8 ∧ ¬(c3Run.compressedRecords.length = 2) := by
  decide

/-- Claim C3 amended: under pure RLE each sample produces exactly one record
carrying its timestamp, count 1 and its value — run aggregation only happens
in `COMPRESS_HYBRID` mode — so `[false]*5 ++ [true]*3` yields eight
count-1 records. -/
theorem rle_pure_per_sample_records :
    c3Run.compressedRecords =
      [⟨0, 1, false, COMPRESS_RLE⟩, ⟨1, 1, false, COMPRESS_RLE⟩,
       ⟨2, 1, false, COMPRESS_RLE⟩, ⟨3, 1, false, COMPRESS_RLE⟩,
       ⟨4, 1, false, COMPRESS_RLE⟩, ⟨5, 1, true, COMPRESS_RLE⟩,
       ⟨6, 1, true, COMPRESS_RLE⟩, ⟨7, 1, true, COMPRESS_RLE⟩] := by
  decide

/-! ## Claim C10: exports are non-destructive -/

/-- Claim C10: `getDataAsJSON` and `getDataAsCSV` leave the capture buffer
state unchanged — same buffer contents, `writeIndex` and `readIndex`, hence
the same `getBufferUsage` — and repeated exports return the same data. -/
theorem exports_nondestructive : ∀ s : LAState,
    (getDataAsJSON s).2 = s ∧
    (getDataAsCSV s).2 = s ∧
    (getDataAsJSON s).2.buffer = s.buffer ∧
    (getDataAsJSON s).2.writeIndex = s.writeIndex ∧
    (getDataAsJSON s).2.readIndex = s.readIndex ∧
    getBufferUsage (getDataAsJSON s).2 = getBufferUsage s ∧
    getBufferUsage (getDataAsCSV s).2 = getBufferUsage s ∧
    (getDataAsJSON ((getDataAsJSON s).2)).1 = (getDataAsJSON s).1 ∧
    (getDataAsCSV ((getDataAsCSV s).2)).1 = (getDataAsCSV s).1 :=
  fun _ => ⟨rfl, rfl, rfl, rfl, rfl, rfl, rfl, rfl, rfl⟩

/-! ## Serial-log helper lemmas -/

theorem logAppend_getLast (log : List LogEntry) (e : LogEntry) :
    (logAppend log e).getLast? = some e := by
  simp only [logAppend]
  split
  · rename_i h
    cases log with
    | nil => simp [MAX_LOG_ENTRIES] at h
    | cons a t => simp
  · exact List.getLast?_concat _

theorem addLogEntry_getLast (now : Nat) (m : String) (s : LAState) :
    (addLogEntry now m s).serialLog.getLast? = some ⟨now, m⟩ :=
  logAppend_getLast s.serialLog ⟨now, m⟩

theorem logAppend_shape (log : List LogEntry) (e : LogEntry) :
    ∃ L, logAppend log e = L ++ [e] := by
  simp only [logAppend]
  split
  · rename_i h
    cases log with
    | nil => simp [MAX_LOG_ENTRIES] at h
    | cons a t => exact ⟨t, by simp⟩
  · exact ⟨log, rfl⟩

theorem logAppend_shape2 (L : List LogEntry) (e1 e2 : LogEntry) :
    ∃ M, logAppend (L ++ [e1]) e2 = M ++ [e1, e2] := by
  simp only [logAppend]
  split
  · rename_i h
    cases L with
    | nil => simp [MAX_LOG_ENTRIES] at h
    | cons a t => exact ⟨t, by simp⟩
  · exact ⟨L, by simp⟩

/-- The two auto-stop messages of the buffer-full paths (`process` line 245,
`processDualModeData` line 85). -/
def isStopMsg (e : LogEntry) : Bool :=
  e.msg == "Buffer full - auto-stopping capture" ||
  e.msg == "Dual-mode Logic buffer full - stopping capture"

/-- One of the two newest serial-log entries records a buffer-full stop. -/
def stopLogged (log : List LogEntry) : Bool :=
  (log.reverse.take 2).any isStopMsg

theorem stopLogged_append_one (L : List LogEntry) (e : LogEntry)
    (h : isStopMsg e = true) : stopLogged (L ++ [e]) = true := by
  unfold stopLogged
  simp [h]

theorem stopLogged_logAppend_one (log : List LogEntry) (e : LogEntry)
    (h : isStopMsg e = true) : stopLogged (logAppend log e) = true := by
  obtain ⟨L, hL⟩ := logAppend_shape log e
  rw [hL]
  exact stopLogged_append_one L e h

theorem stopLogged_logAppend_two (log : List LogEntry) (e1 e2 : LogEntry)
    (h : isStopMsg e1 = true) :
    stopLogged (logAppend (logAppend log e1) e2) = true := by
  obtain ⟨L1, h1⟩ := logAppend_shape log e1
  rw [h1]
  obtain ⟨M, hM⟩ := logAppend_shape2 L1 e1 e2
  rw [hM]
  unfold stopLogged
  simp [h]

/-! ## Claim C5: stopCapture synchronicity and flushing -/

theorem flushFlashBuffer_capturing (s : LAState) :
    (flushFlashBuffer s).capturing = s.capturing := by
  simp only [flushFlashBuffer]
  split <;> rfl

theorem flushFlashBuffer_serialLog (s : LAState) :
    (flushFlashBuffer s).serialLog = s.serialLog := by
  simp only [flushFlashBuffer]
  split <;> rfl

/-- The state of claim C5's counterexample: streaming mode with one staged
sample (8 bytes) not yet written to the backing file. -/
def c5StreamState : LAState :=
  { initState with bufferMode := BUFFER_STREAMING
                   capturing := true
                   streamingActive := true
                   flashWriteBufAllocated := true
                   bufferPosition := 8
                   stagedSamples := [⟨0, true⟩]
                   flashSamplesWritten := 1 }

/-- Counterexample to C5 as stated: in `BUFFER_STREAMING` mode `stopCapture`
flips `capturing` but performs no final flush — the 8 staged bytes stay in
the staging buffer (`bufferPosition` remains 8, not 0). -/
theorem stopCapture_streaming_unflushed_counterexample :
    (stopCapture 0 c5StreamState).capturing = false ∧
    (stopCapture 0 c5StreamState).bufferPosition = 8 ∧
    ¬((stopCapture 0 c5StreamState).bufferPosition = 0) := by
  decide

/-- Claim C5 amended: `stopCapture` synchronously clears `capturing`, and it
forces the final staging-buffer flush only in `BUFFER_FLASH` mode (given the
staging buffer was allocated); in `BUFFER_STREAMING` mode the flush is left
to `stopStreaming`/`enableStreamingMode(false)`. -/
theorem stopCapture_sync_flush_flash_only : ∀ (s : LAState) (now : Nat),
    (stopCapture now s).capturing = false ∧
    (s.bufferMode = BUFFER_FLASH → s.flashWriteBufAllocated = true →
      (stopCapture now s).bufferPosition = 0) := by
  intro s now
  constructor
  · simp only [stopCapture]
    split
    · rw [flushFlashBuffer_capturing]
      rfl
    · rfl
  · intro hm ha
    simp only [stopCapture, addLogEntry]
    split
    · simp only [flushFlashBuffer]
      split
      · rename_i hcond
        simp only [ha, Bool.not_true, Bool.false_or, beq_iff_eq] at hcond
        exact hcond
      · rfl
    · rename_i hcond
      exact absurd hm hcond

def c5FlashState : LAState :=
  { initState with bufferMode := BUFFER_FLASH
                   capturing := true
                   flashWriteBufAllocated := true
                   bufferPosition := 8
                   stagedSamples := [⟨0, true⟩]
                   flashSamplesWritten := 1 }

/-- Witness for the amended C5 at a concrete flash-mode state. -/
theorem stopCapture_sync_flush_flash_only_witness :
    (stopCapture 0 c5FlashState).capturing = false ∧
    (stopCapture 0 c5FlashState).bufferPosition = 0 :=
  ⟨(stopCapture_sync_flush_flash_only c5FlashState 0).1,
   (stopCapture_sync_flush_flash_only c5FlashState 0).2 rfl rfl⟩

/-! ## Claim C6: configuration clamping and logging -/

/-- Counterexample to C6 as stated ("every clamp is logged"):
`setSampleRate(5)` clamps the rate up to 10 but adds no log entry — the
serial log, empty beforehand, is still empty afterwards (the source only
prints the applied rate to the serial console). -/
theorem setSampleRate_clamp_not_logged_counterexample :
    (setSampleRate 5 initState).sampleRate = 10 ∧
    (setSampleRate 5 initState).serialLog = [] := by
  exact ⟨rfl, rfl⟩

theorem saveLogicConfig_sampleRate (now : Nat) (s : LAState) :
    (saveLogicConfig now s).sampleRate = s.sampleRate := by
  simp only [saveLogicConfig]
  split <;> rfl

theorem saveLogicConfig_preTriggerPercent (now : Nat) (s : LAState) :
    (saveLogicConfig now s).preTriggerPercent = s.preTriggerPercent := by
  simp only [saveLogicConfig]
  split <;> rfl

theorem addLogEntry_sampleRate (n : Nat) (m : String) (s : LAState) :
    (addLogEntry n m s).sampleRate = s.sampleRate := rfl

theorem addLogEntry_preTriggerPercent (n : Nat) (m : String) (s : LAState) :
    (addLogEntry n m s).preTriggerPercent = s.preTriggerPercent := rfl

theorem addLogEntry_dualModeActive (n : Nat) (m : String) (s : LAState) :
    (addLogEntry n m s).dualModeActive = s.dualModeActive := rfl

theorem setTrigger_sampleRate (m : TriggerMode) (s : LAState) :
    (setTrigger m s).sampleRate = s.sampleRate := rfl

theorem setTrigger_preTriggerPercent (m : TriggerMode) (s : LAState) :
    (setTrigger m s).preTriggerPercent = s.preTriggerPercent := rfl

/-- Claim C6 amended: out-of-range values are clamped to the nearest bound —
`setSampleRate` stores 10 below 10 Hz, 40000000 above 40 MHz и the rate
itself in between, and `configureLogic` clamps the sample rate the same way
and the pre-trigger percentage to at most 90.  `configureLogic` appends a
log entry recording the clamped configuration, but `setSampleRate` itself
adds no log entry, so clamps through it are not logged. -/
theorem configuration_clamping : ∀ (s : LAState) (now rate pin bsize ptrig : Nat)
    (tmode : TriggerMode),
    ((setSampleRate rate s).sampleRate =
      (if rate < 10 then 10 else if rate > 40000000 then 40000000 else rate)) ∧
    ((setSampleRate rate s).serialLog = s.serialLog) ∧
    ((configureLogic now rate pin tmode bsize ptrig s).sampleRate =
      (if rate < 10 then 10 else if rate > 40000000 then 40000000 else rate)) ∧
    ((configureLogic now rate pin tmode bsize ptrig s).preTriggerPercent =
      (if ptrig > 90 then 90 else ptrig)) ∧
    ((configureLogic now rate pin tmode bsize ptrig s).serialLog.getLast? =
      some ⟨now, configMsgStr
        (if rate < 10 then 10 else if rate > 40000000 then 40000000 else rate)
        (if pin > 48 then 1 else pin) tmode
        (if bsize > 262144 then 262144 else if bsize < 1024 then 1024 else bsize)
        (if ptrig > 90 then 90 else ptrig)⟩) := by
  intro s now rate pin bsize ptrig tmode
  refine ⟨?_, rfl, ?_, ?_, ?_⟩
  · simp only [setSampleRate, MIN_SAMPLE_RATE, MAX_SAMPLE_RATE]
    split_ifs <;> omega
  · simp only [configureLogic, addLogEntry_sampleRate, saveLogicConfig_sampleRate,
      setTrigger, setSampleRate, MIN_SAMPLE_RATE, MAX_SAMPLE_RATE]
    split_ifs <;> omega
  · simp only [configureLogic, addLogEntry_preTriggerPercent, saveLogicConfig_preTriggerPercent,
      setTrigger, setSampleRate]
  · simp only [configureLogic, MIN_SAMPLE_RATE, MAX_SAMPLE_RATE, MAX_BUFFER_SIZE]
    rw [addLogEntry_getLast]
    rw [show (if (if rate < 10 then 10 else rate) > 40000000 then 40000000
          else (if rate < 10 then 10 else rate))
        = (if rate < 10 then 10 else if rate > 40000000 then 40000000 else rate) from by
      split_ifs <;> omega]
    rw [show (if (if bsize > 262144 then 262144 else bsize) < 1024 then 1024
          else (if bsize > 262144 then 262144 else bsize))
        = (if bsize > 262144 then 262144 else if bsize < 1024 then 1024 else bsize) from by
      split_ifs <;> omega]

/-! ## Claim C8: half-duplex busy rejection -/

/-- Claim C8: `sendHalfDuplexCommand` rejects synchronously with `false`
whenever the engine is not in half-duplex mode (leaving the pending slot
untouched) or is busy; the command never occupies more than the single
pending-command slot — after a busy-path call the slot holds exactly the one
command with its line terminator. -/
theorem half_duplex_busy_rejected : ∀ (s : LAState) (now : Nat) (cmd : String),
    (s.duplexMode ≠ UART_HALF_DUPLEX →
      (sendHalfDuplexCommand now cmd s).1 = false ∧
      (sendHalfDuplexCommand now cmd s).2.halfDuplexTxQueue = s.halfDuplexTxQueue) ∧
    (s.duplexMode = UART_HALF_DUPLEX → s.halfDuplexBusy = true →
      (sendHalfDuplexCommand now cmd s).1 = false ∧
      (sendHalfDuplexCommand now cmd s).2.halfDuplexTxQueue = cmd ++ "\r\n") := by
  intro s now cmd
  constructor
  · intro h
    unfold sendHalfDuplexCommand
    rw [if_pos h]
    exact ⟨rfl, rfl⟩
  · intro h1 h2
    have hne : ¬(s.duplexMode ≠ UART_HALF_DUPLEX) := by simp [h1]
    unfold sendHalfDuplexCommand
    rw [if_neg hne, if_pos h2]
    exact ⟨rfl, rfl⟩

def c8BusyState : LAState :=
  { initState with duplexMode := UART_HALF_DUPLEX, halfDuplexBusy := true }

/-- Witness for C8: in full-duplex mode the send is rejected, and in busy
half-duplex mode it is rejected with the slot holding the one command. -/
theorem half_duplex_busy_rejected_witness :
    (sendHalfDuplexCommand 0 "AT" initState).1 = false ∧
    (sendHalfDuplexCommand 0 "AT" c8BusyState).1 = false ∧
    (sendHalfDuplexCommand 0 "AT" c8BusyState).2.halfDuplexTxQueue = "AT" ++ "\r\n" :=
  ⟨((half_duplex_busy_rejected initState 0 "AT").1 (by decide)).1,
   ((half_duplex_busy_rejected c8BusyState 0 "AT").2 rfl rfl).1,
   ((half_duplex_busy_rejected c8BusyState 0 "AT").2 rfl rfl).2⟩

/-! ## Claim C9: dual mode fails closed on pin mismatch -/

/-- Claim C9: `enableDualMode(true)` activates dual mode exactly when the
UART RX pin equals the logic GPIO pin; on a mismatch it leaves dual mode
inactive (status reports `dual_mode_active == false`) and appends a log
entry naming both mismatched pins. -/
theorem dual_mode_pin_mismatch_fails_closed : ∀ (s : LAState) (now : Nat),
    ((enableDualMode true now s).dualModeActive = isDualModeCompatible s) ∧
    (s.uartRxPin ≠ s.logicGpioPin →
      dualModeStatusActive (enableDualMode true now s) = false ∧
      (enableDualMode true now s).serialLog.getLast? =
        some ⟨now, "Dual-mode failed: Pin conflict - UART on GPIO" ++ toString s.uartRxPin
          ++ ", Logic on GPIO" ++ toString s.logicGpioPin⟩) := by
  intro s now
  by_cases hc : isDualModeCompatible s = true
  · constructor
    · simp [enableDualMode, hc, addLogEntry_dualModeActive]
    · intro hne
      exact absurd (by simpa [isDualModeCompatible] using hc) hne
  · have hc' : isDualModeCompatible s = false := by
      cases h : isDualModeCompatible s
      · rfl
      · exact absurd h hc
    have hred : enableDualMode true now s
        = addLogEntry now ("Dual-mode failed: Pin conflict - UART on GPIO"
            ++ toString s.uartRxPin ++ ", Logic on GPIO" ++ toString s.logicGpioPin)
          { s with dualModeActive := false } := by
      simp [enableDualMode, hc']
    constructor
    · rw [hred, addLogEntry_dualModeActive, hc']
    · intro _
      refine ⟨?_, ?_⟩
      · rw [show dualModeStatusActive (enableDualMode true now s)
              = (enableDualMode true now s).dualModeActive from rfl,
            hred, addLogEntry_dualModeActive]
      · rw [hred]
        exact addLogEntry_getLast now _ _

def c9State : LAState := { initState with uartRxPin := 7, logicGpioPin := 2 }

/-- Witness for C9 at the spec's concrete pins (UART RX 7, logic GPIO 2). -/
theorem dual_mode_pin_mismatch_fails_closed_witness :
    dualModeStatusActive (enableDualMode true 5 c9State) = false ∧
    (enableDualMode true 5 c9State).serialLog.getLast? =
      some ⟨5, "Dual-mode failed: Pin conflict - UART on GPIO7, Logic on GPIO2"⟩ := by
  have h := (dual_mode_pin_mismatch_fails_closed c9State 5).2 (by decide)
  exact ⟨h.1, h.2.trans (by decide)⟩

/-! ## Claim C7: UART log compaction -/

/-- The analyzer with the in-memory UART store selected and a configured
capacity of 1000 entries (`enableFlashStorage(false)`,
`setUartBufferSize(1000)`). -/
def c7Init : LAState := { initState with useFlashStorage := false, maxUartEntries := 1000 }

/-- `n` distinct UART messages `"0", "1", ...` in arrival order. -/
def mkUartMsgs (n : Nat) : List String := (List.range n).map toString

/-- Insert the messages one `addUartEntry` call at a time (all at
`millis() = 0`, direction RX). -/
def addUartEntries (msgs : List String) (s : LAState) : LAState :=
  msgs.foldl (fun t m => addUartEntry 0 m true t) s

/-- The stored entry a message produces. -/
def uartEntryOf (m : String) : UartEntry := ⟨0, true, m⟩

theorem addUartEntry_flags (now : Nat) (m : String) (r : Bool) (s : LAState) :
    (addUartEntry now m r s).useFlashStorage = s.useFlashStorage ∧
    (addUartEntry now m r s).maxUartEntries = s.maxUartEntries := by
  refine ⟨?_, ?_⟩ <;>
    (simp only [addUartEntry, compactUartLogs, addLogEntry]; repeat' split) <;> rfl

theorem addUartEntries_flags : ∀ (msgs : List String) (s : LAState),
    (addUartEntries msgs s).useFlashStorage = s.useFlashStorage ∧
    (addUartEntries msgs s).maxUartEntries = s.maxUartEntries := by
  intro msgs
  induction msgs with
  | nil => intro s; exact ⟨rfl, rfl⟩
  | cons m rest ih =>
      intro s
      have h1 := addUartEntry_flags 0 m true s
      have h2 := ih (addUartEntry 0 m true s)
      exact ⟨h2.1.trans h1.1, h2.2.trans h1.2⟩

/-- Below capacity, each RAM-mode `addUartEntry` just appends. -/
theorem addUartEntry_ram_append (now : Nat) (m : String) (s : LAState)
    (hf : s.useFlashStorage = false)
    (hlen : s.uartLog.length + 1 ≤ s.maxUartEntries) :
    (addUartEntry now m true s).uartLog = s.uartLog ++ [⟨now, true, m⟩] := by
  simp only [addUartEntry, addLogEntry, hf, Bool.false_eq_true, if_false]
  rw [if_neg (by simp; omega)]

theorem addUartEntries_ram : ∀ (msgs : List String) (s : LAState),
    s.useFlashStorage = false →
    s.uartLog.length + msgs.length ≤ s.maxUartEntries →
    (addUartEntries msgs s).uartLog = s.uartLog ++ msgs.map uartEntryOf := by
  intro msgs
  induction msgs with
  | nil => intro s _ _; simp [addUartEntries]
  | cons m rest ih =>
      intro s hf hlen
      have hlen' : s.uartLog.length + (rest.length + 1) ≤ s.maxUartEntries := by
        simpa using hlen
      have hstep : (addUartEntry 0 m true s).uartLog = s.uartLog ++ [uartEntryOf m] :=
        addUartEntry_ram_append 0 m s hf (by omega)
      have hflags := addUartEntry_flags 0 m true s
      have ihr := ih (addUartEntry 0 m true s) (hflags.1.trans hf)
        (by rw [hstep, hflags.2, List.length_append]; simp only [List.length_singleton]; omega)
      show (addUartEntries rest (addUartEntry 0 m true s)).uartLog = _
      rw [ihr, hstep]
      simp

/-- A RAM-mode `addUartEntry` into a store already at its capacity of 1000:
the push makes the size 1001 > 1000, so `compactUartLogs` fires (1001 is
past the 90% mark) and drops the oldest `1000 * 0.2 = 200` entries. -/
theorem addUartEntry_ram_full_compact (now : Nat) (m : String) (s : LAState)
    (hf : s.useFlashStorage = false) (hmax : s.maxUartEntries = 1000)
    (hlen : s.uartLog.length = 1000) :
    (addUartEntry now m true s).uartLog
      = (s.uartLog ++ [(⟨now, true, m⟩ : UartEntry)]).drop 200 := by
  have hc1 : (s.uartLog ++ [(⟨now, true, m⟩ : UartEntry)]).length > s.maxUartEntries := by
    simp only [List.length_append, List.length_singleton, hlen, hmax]
    omega
  have hc2 : 10 * (s.uartLog ++ [(⟨now, true, m⟩ : UartEntry)]).length
      ≥ 9 * s.maxUartEntries := by
    simp only [List.length_append, List.length_singleton, hlen, hmax]
    omega
  simp only [addUartEntry, compactUartLogs, addLogEntry, hf, Bool.false_eq_true, if_false]
  rw [if_pos hc1, if_pos hc2, hmax]

/-- Counterexample to C7 as stated: with capacity 1000, inserting entries
until the store's size reaches 900 triggers no compaction at all — the
store still holds all 900 entries, not 700.  (`addUartEntry` only invokes
`compactUartLogs` once the size exceeds `maxUartEntries`.) -/
theorem uart_compaction_not_at_900_counterexample :
    (addUartEntries (mkUartMsgs 900) c7Init).uartLog.length = 900 ∧
    ¬((addUartEntries (mkUartMsgs 900) c7Init).uartLog.length = 700) := by
  have h := addUartEntries_ram (mkUartMsgs 900) c7Init rfl
    (by simp [mkUartMsgs, c7Init, initState])
  have hlen : (addUartEntries (mkUartMsgs 900) c7Init).uartLog.length = 900 := by
    rw [h]
    simp [mkUartMsgs, c7Init, initState]
  exact ⟨hlen, by omega⟩

/-- Claim C7 amended: with capacity 1000, compaction fires only when an
insertion pushes the size beyond the capacity — on the 1001st entry — and
then removes 20% of capacity (200) oldest entries in one batch, leaving the
801 newest in arrival order. -/
theorem uart_compaction_on_overflow :
    (addUartEntries (mkUartMsgs 1001) c7Init).uartLog
      = ((mkUartMsgs 1001).map uartEntryOf).drop 200 ∧
    (addUartEntries (mkUartMsgs 1001) c7Init).uartLog.length = 801 := by
  have hgen : ∀ n : Nat, mkUartMsgs (n + 1) = mkUartMsgs n ++ [toString n] := by
    intro n
    simp [mkUartMsgs, List.range_succ]
  have hsplit : mkUartMsgs 1001 = mkUartMsgs 1000 ++ [toString 1000] := hgen 1000
  have hfold : addUartEntries (mkUartMsgs 1001) c7Init
      = addUartEntry 0 (toString 1000) true (addUartEntries (mkUartMsgs 1000) c7Init) := by
    rw [show addUartEntries (mkUartMsgs 1001) c7Init
          = (mkUartMsgs 1001).foldl (fun t m => addUartEntry 0 m true t) c7Init from rfl,
        hsplit, List.foldl_append]
    rw [List.foldl_cons, List.foldl_nil]
    rfl
  have h1 : (addUartEntries (mkUartMsgs 1000) c7Init).uartLog
      = (mkUartMsgs 1000).map uartEntryOf := by
    have h := addUartEntries_ram (mkUartMsgs 1000) c7Init rfl
      (by simp [mkUartMsgs, c7Init, initState])
    simpa [c7Init, initState] using h
  have hflags := addUartEntries_flags (mkUartMsgs 1000) c7Init
  have hlen1 : (addUartEntries (mkUartMsgs 1000) c7Init).uartLog.length = 1000 := by
    rw [h1]
    simp [mkUartMsgs]
  have hfinal : (addUartEntry 0 (toString 1000) true
        (addUartEntries (mkUartMsgs 1000) c7Init)).uartLog
      = ((mkUartMsgs 1000).map uartEntryOf ++ [uartEntryOf (toString 1000)]).drop 200 := by
    rw [addUartEntry_ram_full_compact 0 (toString 1000) _ (hflags.1.trans rfl)
      (hflags.2.trans rfl) hlen1, h1]
    rfl
  constructor
  · rw [hfold, hfinal, hsplit, List.map_append]
    rfl
  · rw [hfold, hfinal, List.length_drop, List.length_append, List.length_map]
    simp [mkUartMsgs]

/-! ## Claim C4: buffer-full is a terminal condition

The capture-relevant fields (`CapEq`) are those `isBufferFull` and
`capturing` read; the UART servicing, logging and trigger bookkeeping of a
tick never touch them. -/

/-- Two states agree on `capturing` and on every field `isBufferFull`
reads. -/
def CapEq (s t : LAState) : Prop :=
  s.capturing = t.capturing ∧ s.bufferMode = t.bufferMode ∧
  s.writeIndex = t.writeIndex ∧ s.readIndex = t.readIndex ∧
  s.flashSamplesWritten = t.flashSamplesWritten ∧
  s.maxFlashSamples = t.maxFlashSamples

theorem capEq_refl (s : LAState) : CapEq s s := ⟨rfl, rfl, rfl, rfl, rfl, rfl⟩

theorem capEq_trans {a b c : LAState} (h1 : CapEq a b) (h2 : CapEq b c) : CapEq a c :=
  ⟨h1.1.trans h2.1, h1.2.1.trans h2.2.1, h1.2.2.1.trans h2.2.2.1,
   h1.2.2.2.1.trans h2.2.2.2.1, h1.2.2.2.2.1.trans h2.2.2.2.2.1,
   h1.2.2.2.2.2.trans h2.2.2.2.2.2⟩

theorem capEq_isBufferFull {s t : LAState} (h : CapEq s t) :
    isBufferFull s = isBufferFull t := by
  unfold isBufferFull getBufferUsage
  rw [h.2.1, h.2.2.1, h.2.2.2.1, h.2.2.2.2.1, h.2.2.2.2.2]

theorem capEq_addUartEntry (now : Nat) (m : String) (r : Bool) (s : LAState) :
    CapEq (addUartEntry now m r s) s := by
  refine ⟨?_, ?_, ?_, ?_, ?_, ?_⟩ <;>
    (simp only [addUartEntry, compactUartLogs, addLogEntry]; repeat' split) <;> rfl

set_option maxHeartbeats 1000000 in
theorem capEq_uartRxByte (now : Nat) (s : LAState) (c : Nat) :
    CapEq (uartRxByte now s c) s := by
  refine ⟨?_, ?_, ?_, ?_, ?_, ?_⟩ <;>
    (simp only [uartRxByte, addUartEntry, compactUartLogs, addLogEntry];
     repeat' split) <;> rfl

theorem capEq_foldl_uartRxByte (now : Nat) : ∀ (bytes : List Nat) (s : LAState),
    CapEq (bytes.foldl (uartRxByte now) s) s := by
  intro bytes
  induction bytes with
  | nil => intro s; exact capEq_refl s
  | cons c rest ih =>
      intro s
      exact capEq_trans (ih (uartRxByte now s c)) (capEq_uartRxByte now s c)

theorem capEq_processHalfDuplexQueue (now : Nat) (s : LAState) :
    CapEq (processHalfDuplexQueue now s) s := by
  refine ⟨?_, ?_, ?_, ?_, ?_, ?_⟩ <;>
    (simp only [processHalfDuplexQueue, switchToTxMode, addUartEntry, compactUartLogs,
       addLogEntry];
     repeat' split) <;> rfl

theorem capEq_switchToRxMode (now : Nat) (s : LAState) :
    CapEq (switchToRxMode now s) s := by
  refine ⟨?_, ?_, ?_, ?_, ?_, ?_⟩ <;>
    (simp only [switchToRxMode, addLogEntry]; repeat' split) <;> rfl

theorem capEq_uartHalfDuplexPhase (now : Nat) (s : LAState) :
    CapEq (uartHalfDuplexPhase now s) s := by
  simp only [uartHalfDuplexPhase]
  split
  · exact capEq_trans (capEq_switchToRxMode now _) (capEq_processHalfDuplexQueue now s)
  · exact capEq_processHalfDuplexQueue now s

theorem capEq_uartRxPhase (now : Nat) (bytes : List Nat) (s : LAState) :
    CapEq (uartRxPhase now bytes s) s := by
  simp only [uartRxPhase]
  split
  · exact capEq_trans
      (capEq_trans (capEq_refl _) (capEq_addUartEntry now _ true _))
      (capEq_foldl_uartRxByte now bytes s)
  · exact capEq_foldl_uartRxByte now bytes s

theorem capEq_processUartData (now : Nat) (bytes : List Nat) (s : LAState) :
    CapEq (processUartData now bytes s) s := by
  simp only [processUartData]
  split
  · exact capEq_refl s
  · split
    · split
      · exact capEq_trans (capEq_uartRxPhase now bytes _) (capEq_uartHalfDuplexPhase now s)
      · exact capEq_uartHalfDuplexPhase now s
    · split
      · exact capEq_uartRxPhase now bytes s
      · exact capEq_refl s

theorem capEq_triggerWaitStep (inp : TickInput) (s : LAState) :
    CapEq (triggerWaitStep inp s) s := by
  refine ⟨?_, ?_, ?_, ?_, ?_, ?_⟩ <;>
    (simp only [triggerWaitStep, addLogEntry]; repeat' split) <;> rfl

theorem stopCapture_capturing (now : Nat) (t : LAState) :
    (stopCapture now t).capturing = false := by
  simp only [stopCapture]
  split
  · rw [flushFlashBuffer_capturing]
    rfl
  · rfl

theorem stopCapture_serialLog (now : Nat) (t : LAState) :
    (stopCapture now t).serialLog
      = logAppend t.serialLog ⟨now, stopCaptureMsg { t with capturing := false }⟩ := by
  simp only [stopCapture]
  split
  · rw [flushFlashBuffer_serialLog]
    rfl
  · rfl

/-- The sampling branch of a processing tick: either the buffer is not full
afterwards and the capture goes on, or it is full, the capture has been
stopped and the stop was logged. -/
theorem captureSampleStep_spec (inp : TickInput) (s : LAState) :
    ((captureSampleStep inp s).capturing = true →
      isBufferFull (captureSampleStep inp s) = false) ∧
    (isBufferFull (captureSampleStep inp s) = true →
      (captureSampleStep inp s).capturing = false ∧
      stopLogged (captureSampleStep inp s).serialLog = true) := by
  simp only [captureSampleStep]
  split
  · rename_i hfull
    constructor
    · intro hc
      rw [stopCapture_capturing] at hc
      exact absurd hc (by simp)
    · intro _
      refine ⟨stopCapture_capturing _ _, ?_⟩
      rw [stopCapture_serialLog]
      exact stopLogged_logAppend_two _ _ _ rfl
  · rename_i hnf
    constructor
    · intro _
      simpa using hnf
    · intro hf
      exact absurd hf hnf

/-- The dual-mode tick body: same dichotomy as `captureSampleStep_spec`,
from the buffer-full check at the end of `processDualModeData`. -/
theorem processDualModeData_spec (now mic : Nat) (pin : Bool) (bytes : List Nat)
    (s : LAState) :
    ((processDualModeData now mic pin bytes s).capturing = true →
      isBufferFull (processDualModeData now mic pin bytes s) = false) ∧
    (isBufferFull (processDualModeData now mic pin bytes s) = true →
      (processDualModeData now mic pin bytes s).capturing = false ∧
      stopLogged (processDualModeData now mic pin bytes s).serialLog = true) := by
  simp only [processDualModeData]
  split
  · constructor
    · intro hc
      exact absurd (Bool.false_ne_true hc) (fun h => h)
    · intro _
      exact ⟨rfl, stopLogged_logAppend_one _ _ rfl⟩
  · rename_i hnf
    constructor
    · intro _
      simpa using hnf
    · intro hf
      exact absurd hf hnf

/-- Claim C4: during an active capture whose buffer is not yet full, a
processing tick (normal or dual-mode) never ends capturing with a full
buffer: if the tick fills the active buffer, it clears `capturing` and one
of the two newest serial-log entries is the buffer-full stop message. -/
theorem buffer_full_auto_stop : ∀ (s : LAState) (inp : TickInput),
    s.capturing = true → isBufferFull s = false →
    ((processTick inp s).capturing = true → isBufferFull (processTick inp s) = false) ∧
    (isBufferFull (processTick inp s) = true →
      (processTick inp s).capturing = false ∧
      stopLogged (processTick inp s).serialLog = true) := by
  intro s inp hcap hfull
  simp only [processTick]
  split
  · split
    · exact processDualModeData_spec inp.now inp.mic inp.pin inp.uartBytes s
    · exact ⟨fun _ => hfull, fun hf => absurd hf (by simp [hfull])⟩
  · set t := if s.uartMonitoringEnabled = true
        then processUartData inp.now inp.uartBytes s else s with ht
    have hA : CapEq t s := by
      rw [ht]
      split
      · exact capEq_processUartData inp.now inp.uartBytes s
      · exact capEq_refl s
    have htc : t.capturing = true := hA.1.trans hcap
    have htf : isBufferFull t = false := (capEq_isBufferFull hA).trans hfull
    split
    · rename_i hc
      rw [htc] at hc
      simp at hc
    · split
      · split
        · have hB := capEq_triggerWaitStep inp t
          have hBf : isBufferFull (triggerWaitStep inp t) = false :=
            (capEq_isBufferFull hB).trans htf
          constructor
          · intro _
            exact hBf
          · intro hf
            rw [hBf] at hf
            exact absurd hf (by simp)
        · exact captureSampleStep_spec inp t
      · exact ⟨fun _ => htf, fun hf => absurd hf (by simp [htf])⟩

/-- A RAM-mode capture one sample short of full, with the trigger armed. -/
def c4State : LAState :=
  { initState with bufferMode := BUFFER_RAM
                   capturing := true
                   triggerArmed := true
                   writeIndex := 16382
                   readIndex := 0 }

def c4Input : TickInput := ⟨1, 1000, true, []⟩

/-- Witness for C4: the tick that records sample 16383 fills the RAM ring,
stops the capture and logs the stop. -/
theorem buffer_full_auto_stop_witness :
    isBufferFull c4State = false ∧
    isBufferFull (processTick c4Input c4State) = true ∧
    (processTick c4Input c4State).capturing = false ∧
    stopLogged (processTick c4Input c4State).serialLog = true := by
  have h := buffer_full_auto_stop c4State c4Input rfl (by decide)
  have hfull2 : isBufferFull (processTick c4Input c4State) = true := by decide
  exact ⟨by decide, hfull2, (h.2 hfull2).1, (h.2 hfull2).2⟩

end AtomProbe
